import Mathlib

/-!
Verification development for the `usrlinks` username-availability scanner
(`usrlinks.py`). The probe engine is shallowly embedded: HTTP transport,
HTML text extraction and terminal output are modelled as explicit function
parameters (oracles); everything else is translated directly from the
source. Python exceptions are modelled with `Except String`; the Python
value `None` stored in `result["available"]` is `Option.none`.
-/

namespace Usrlinks

/-- Checks whether `needle` is a prefix of `hay` (character lists). -/
def strPrefixAt : List Char → List Char → Bool
  | [], _ => true
  | _ :: _, [] => false
  | a :: as, b :: bs => a == b && strPrefixAt as bs

/-- Checks whether `needle` occurs as a contiguous substring of the list. -/
def substrAux (needle : List Char) : List Char → Bool
  | [] => needle.isEmpty
  | c :: rest => strPrefixAt needle (c :: rest) || substrAux needle rest

/-- Models the Python substring test `needle in hay` on strings. -/
def containsSubstr (hay needle : String) : Bool :=
  substrAux needle.data hay.data

/-- ASCII lower-casing of one character. -/
def charLower (c : Char) : Char :=
  if 65 ≤ c.toNat ∧ c.toNat ≤ 90 then Char.ofNat (c.toNat + 32) else c

/-- Models Python `str.lower()`. Python lower-cases per Unicode; every
configured not-found pattern in this repository is ASCII, and the model
covers the ASCII range. -/
def pyLower (s : String) : String := String.mk (s.data.map charLower)

/-- Models Python `template.format(arg)` restricted to the field forms used in
this repository: the automatic positional field `\x7b\x7d` (at most once, since only
one argument is supplied; a second occurrence raises IndexError), and the
escapes `\x7b\x7b` / `\x7d\x7d`. Any other field (a named field such as the one in
`"\x7buser\x7d"` raises KeyError; a lone brace raises ValueError) is modelled as
`none` (= the call raises). -/
def formatCore (arg : String) : List Char → Bool → String → Option String
  | [], _, acc => some acc
  | '{' :: '{' :: rest, used, acc => formatCore arg rest used (acc.push '{')
  | '}' :: '}' :: rest, used, acc => formatCore arg rest used (acc.push '}')
  | '{' :: '}' :: rest, used, acc =>
    if used then none else formatCore arg rest true (acc ++ arg)
  | '{' :: _, _, _ => none
  | '}' :: _, _, _ => none
  | c :: rest, used, acc => formatCore arg rest used (acc.push c)

/-- `formatTemplate t arg` models `t.format(arg)` (usrlinks.py line 391):
`some` is a returned string, `none` a raised exception. -/
def formatTemplate (t arg : String) : Option String :=
  formatCore arg t.data false ""

/-- One platform's configuration dictionary (the values of the dict returned
by `load_platforms`). Optional keys are `Option`-valued: `none` models an
absent key, so that reading it raises `KeyError`. -/
structure PlatformInfo where
  url : Option String := none
  method : Option String := none
  code : Option (List Nat) := none
  error_msg : Option (List String) := none
  recon_enabled : Bool := false
  api_endpoint : Option String := none
deriving DecidableEq, Repr

/-- An HTTP response as consumed by `check_platform`: its status code and its
body text. -/
structure Response where
  status_code : Nat
  text : String
deriving DecidableEq, Repr

/-- The result dict built by `check_platform` (lines 392-397): platform name,
resolved URL, availability (`some true` = Available, `some false` = Taken,
`none` = the Python `None`, i.e. error/indeterminate) and the optional
`"error"` key. The `recon_data` payload (out-of-scope scraping data) is not
modelled. -/
structure ProbeResult where
  platform : String
  url : String
  available : Option Bool
  error : Option String := none
deriving DecidableEq, Repr

/-- The classification step of `check_platform` (lines 407-415), applied to a
successfully obtained response. `getText` models `BeautifulSoup(...,
"html.parser").get_text()` (text extraction from the body). A `.error`
models an exception raised inside the `try` block (e.g. `KeyError` when the
dict lacks the key the branch reads). -/
def classify (getText : String → String) (info : PlatformInfo)
    (response : Response) : Except String Bool :=
  if info.method = some "status_code" then
    match info.code with
    | none => .error "KeyError: code"
    | some codes => .ok (codes.contains response.status_code)
  else if info.method = some "response_text" then
    match info.error_msg with
    | none => .error "KeyError: error_msg"
    | some msgs =>
      let page_text := pyLower (getText response.text)
      .ok (msgs.any fun msg => containsSubstr page_text (pyLower msg))
  else if info.method = none then
    .error "KeyError: method"
  else
    .ok false

/-- Embeds `check_platform` (lines 390-443). `respond` models
`session.get(url, timeout=...)`: `.ok` a response, `.error` a raised
transport exception. The URL is built (line 391) BEFORE the `try` block, so
a failure there is returned as `.error` (an exception escaping
`check_platform`); every failure inside the `try` is caught by the
`except Exception` handler (lines 439-443), which sets `available = None`
and populates `error`. The sleep, User-Agent rotation, progress writes and
deep-recon scraping have no effect on the returned classification fields and
are not modelled. -/
def check_platform (getText : String → String)
    (respond : String → Except String Response)
    (username platform : String) (info : PlatformInfo) :
    Except String ProbeResult :=
  match info.url with
  | none => .error "KeyError: url"
  | some template =>
    match formatTemplate template username with
    | none => .error "str.format error"
    | some url =>
      .ok <|
        match respond url with
        | .error e => { platform, url, available := none, error := some e }
        | .ok response =>
          match classify getText info response with
          | .error e => { platform, url, available := none, error := some e }
          | .ok avail => { platform, url, available := some avail, error := none }

/-- The built-in platform dictionary returned by `load_platforms` with no
config file (lines 295-352), transcribed as an association list in the
dict's insertion order. -/
def builtinPlatforms : List (String × PlatformInfo) :=
  [ ("GitHub",
     { url := some "https://github.com/{}", method := some "status_code",
       code := some [404], recon_enabled := true,
       api_endpoint := some "https://api.github.com/users/{}" }),
    ("Twitter",
     { url := some "https://twitter.com/{}", method := some "response_text",
       error_msg := some ["doesn\x27t exist", "404"], recon_enabled := true }),
    ("Instagram",
     { url := some "https://instagram.com/{}", method := some "status_code",
       code := some [404], recon_enabled := true }),
    ("Reddit",
     { url := some "https://reddit.com/user/{}", method := some "status_code",
       code := some [404], recon_enabled := true }),
    ("LinkedIn",
     { url := some "https://linkedin.com/in/{}", method := some "status_code",
       code := some [404], recon_enabled := true }),
    ("TikTok",
     { url := some "https://tiktok.com/@{}", method := some "response_text",
       error_msg := some ["Couldn\x27t find this account"] }),
    ("YouTube",
     { url := some "https://youtube.com/{}", method := some "response_text",
       error_msg := some ["This channel does not exist"] }),
    ("Twitch",
     { url := some "https://twitch.tv/{}", method := some "status_code",
       code := some [404] }),
    ("Facebook",
     { url := some "https://facebook.com/{}", method := some "response_text",
       error_msg := some ["This page isn\x27t available"] }),
    ("Pinterest",
     { url := some "https://pinterest.com/{}", method := some "response_text",
       error_msg := some ["Sorry, we couldn\x27t find that page"] }),
    ("Steam",
     { url := some "https://steamcommunity.com/id/{}", method := some "response_text",
       error_msg := some ["The specified profile could not be found"] }),
    ("Vimeo",
     { url := some "https://vimeo.com/{}", method := some "response_text",
       error_msg := some ["Sorry, we couldn\x27t find that user"] }),
    ("SoundCloud",
     { url := some "https://soundcloud.com/{}", method := some "response_text",
       error_msg := some ["Oops! We can\x27t find that track"] }),
    ("Medium",
     { url := some "https://medium.com/@{}", method := some "response_text",
       error_msg := some ["404"] }),
    ("DeviantArt",
     { url := some "https://{}.deviantart.com", method := some "response_text",
       error_msg := some ["404"] }),
    ("GitLab",
     { url := some "https://gitlab.com/{}", method := some "status_code",
       code := some [404] }),
    ("Bitbucket",
     { url := some "https://bitbucket.org/{}", method := some "status_code",
       code := some [404] }),
    ("Keybase",
     { url := some "https://keybase.io/{}", method := some "status_code",
       code := some [404] }),
    ("HackerNews",
     { url := some "https://news.ycombinator.com/user?id={}",
       method := some "response_text", error_msg := some ["No such user"] }),
    ("CodePen",
     { url := some "https://codepen.io/{}", method := some "response_text",
       error_msg := some ["Sorry, couldn\x27t find that pen"] }),
    ("Telegram",
     { url := some "https://t.me/{}", method := some "response_text",
       error_msg := some ["Telegram channel not found"] }),
    ("Tumblr",
     { url := some "https://{}.tumblr.com", method := some "response_text",
       error_msg := some ["Nothing here"] }),
    ("Spotify",
     { url := some "https://open.spotify.com/user/{}", method := some "response_text",
       error_msg := some ["Couldn\x27t find that user"] }),
    ("Last.fm",
     { url := some "https://last.fm/user/{}", method := some "response_text",
       error_msg := some ["Page not found"] }),
    ("Roblox",
     { url := some "https://www.roblox.com/user.aspx?username={}",
       method := some "response_text", error_msg := some ["404"] }),
    ("Quora",
     { url := some "https://www.quora.com/profile/{}", method := some "response_text",
       error_msg := some ["Oops! The page you were looking for doesn\x27t exist"] }),
    ("VK",
     { url := some "https://vk.com/{}", method := some "response_text",
       error_msg := some ["404"] }),
    ("Imgur",
     { url := some "https://imgur.com/user/{}", method := some "response_text",
       error_msg := some ["404"] }),
    ("Etsy",
     { url := some "https://www.etsy.com/shop/{}", method := some "response_text",
       error_msg := some ["404"] }),
    ("Pastebin",
     { url := some "https://pastebin.com/u/{}", method := some "response_text",
       error_msg := some ["404"] }) ]

/-- Embeds `load_platforms` (lines 288-295). The argument models a supplied
config file that exists and parses as JSON: `some cfg` is its parsed content
(an association list of platform entries), `none` the case where no path was
given (or the path is not a file). The function performs no validation of a
supplied source: it returns the parsed JSON unchanged. -/
def load_platforms (config : Option (List (String × PlatformInfo))) :
    List (String × PlatformInfo) :=
  match config with
  | some cfg => cfg
  | none => builtinPlatforms

/-- One iteration of the result-collection loop of `scan_usernames` (lines
463-478): `future.result()` either returns `check_platform`'s result or
re-raises its exception; the `except` handler then builds a fallback dict —
but evaluates `platforms[platform]["url"].format(username)` (line 471),
which re-raises for the very inputs that made `check_platform` raise, and
that second exception is uncaught inside `scan_usernames`. -/
def collectResult (getText : String → String)
    (respond : String → Except String Response)
    (username platform : String) (info : PlatformInfo) :
    Except String ProbeResult :=
  match check_platform getText respond username platform info with
  | .ok r => .ok r
  | .error e =>
    match info.url with
    | none => .error "KeyError: url"
    | some template =>
      match formatTemplate template username with
      | none => .error "str.format error"
      | some url => .ok { platform, url, available := none, error := some e }

/-- Embeds `scan_usernames` (lines 445-480) at the level of its observable
result list. `items` is the list of `(platform, info)` pairs in the order
`as_completed` yields their futures — an arbitrary permutation of
`platforms.items()`, since completion order is nondeterministic. An uncaught
exception in the collection loop aborts the whole scan (`.error`). -/
def scan_usernames (getText : String → String)
    (respond : String → Except String Response) (username : String) :
    List (String × PlatformInfo) → Except String (List ProbeResult)
  | [] => .ok []
  | (platform, info) :: rest =>
    match collectResult getText respond username platform info with
    | .error e => .error e
    | .ok r =>
      match scan_usernames getText respond username rest with
      | .error e => .error e
      | .ok rs => .ok (r :: rs)

/-- The status word chosen for a result row: `display_results` (lines
503-511) and `save_results` (line 603) both map `available = True` to
AVAILABLE, `False` to TAKEN and `None` to ERROR (modulo terminal colours,
which are presentation only). -/
def statusString : Option Bool → String
  | some true => "AVAILABLE"
  | some false => "TAKEN"
  | none => "ERROR"

/-- Models `sorted(results, key=lambda x: x["platform"])` (line 502): a
stable sort by platform name, lexicographic on code points as in Python. -/
def sortResults (rs : List ProbeResult) : List ProbeResult :=
  rs.mergeSort fun a b => decide (a.platform ≤ b.platform)

/-- The table rows printed by `display_results` (lines 496-514):
(platform, status, url) triples, sorted by platform name. -/
def displayRows (rs : List ProbeResult) : List (String × String × String) :=
  (sortResults rs).map fun r => (r.platform, statusString r.available, r.url)

/-- The CSV rows written by `save_results` (lines 598-617), projected to the
(platform, status, url) columns (the recon columns concern unmodelled
scraping data). The loop `for result in results` writes the rows in the
order of `results` — no sorting. -/
def saveRows (rs : List ProbeResult) : List (String × String × String) :=
  rs.map fun r => (r.platform, statusString r.available, r.url)

/-- The retry loop of `main` (lines 917-946), with `check` modelling the
`check_platform(session, username, fr["platform"], ...)` call of attempt
`n` (line 927). Returns the list of `retry_results` lists handed to
`print_result_table`, one per executed attempt: the loop runs at most 2
attempts and stops early when an attempt leaves no failed entry. -/
def retryTables (check : Nat → ProbeResult → ProbeResult)
    (failed : List ProbeResult) : List (List ProbeResult) :=
  if failed.isEmpty then []
  else
    let r1 := failed.map (check 0)
    let f1 := r1.filter fun r => decide (r.available = none)
    if f1.isEmpty then [r1]
    else [r1, f1.map (check 1)]

/-- The observable outputs of the tail of `main` (lines 914-951): the retry
tables printed by the retry block, the final table printed by
`display_results(results, ...)` (line 948) and the rows written by
`save_results(results, ...)` (line 951). -/
structure MainReport where
  retries : List (List ProbeResult)
  displayed : List (String × String × String)
  saved : List (String × String × String)
deriving DecidableEq, Repr

/-- Embeds the result dataflow of `main` after the first scan pass (lines
914-951): the retry block (guarded by `--retry`) computes
`failed_results = [r for r in results if r["available"] is None]` and runs
up to two retry attempts, but `display_results` and `save_results` are
applied to the unchanged first-pass `results` list. -/
def mainReport (check : Nat → ProbeResult → ProbeResult)
    (results : List ProbeResult) (retryFlag : Bool) : MainReport :=
  { retries :=
      if retryFlag then
        retryTables check (results.filter fun r => decide (r.available = none))
      else []
    displayed := displayRows results
    saved := saveRows results }

/-- The leet substitution table of `generate_username_variants` (lines
649-652): the substitute characters of a mapped character, `[]` for an
unmapped one (models `if c in leet_map`). -/
def leet_map : Char → List Char
  | 'a' | 'A' => ['4', '@']
  | 'e' | 'E' => ['3']
  | 'i' | 'I' => ['1']
  | 'o' | 'O' => ['0']
  | 's' | 'S' => ['5']
  | 't' | 'T' => ['7']
  | _ => []

/-- `leetify` (lines 656-665): every string obtained by replacing one mapped
character of `s` by one of its substitutes. -/
def leetify (s : String) : List String :=
  (List.range s.data.length).flatMap fun i =>
    (leet_map (s.data.getD i ' ')).map fun c => String.mk (s.data.set i c)

/-- Models Python `s.replace(c, r)` for a single-character pattern: every
occurrence of `c` is replaced by the character list `r`. -/
def replaceAllChar (s : String) (c : Char) (r : List Char) : String :=
  String.mk (s.data.flatMap fun x => if x == c then r else [x])

/-- `underscore_dot_variants` (lines 668-676). -/
def underscore_dot_variants (s : String) : List String :=
  (if s.data.contains '_' then
    [replaceAllChar s '_' [], replaceAllChar s '_' ['-']] else []) ++
  (if s.data.contains '.' then
    [replaceAllChar s '.' [], replaceAllChar s '.' ['-']] else [])

/-- `duplicate_letters` (lines 679-683): `s[:i+1] + s[i] + s[i+1:]` for each
index `i`. -/
def duplicate_letters (s : String) : List String :=
  (List.range s.data.length).map fun i =>
    String.mk (s.data.take (i + 1) ++ [s.data.getD i ' '] ++ s.data.drop (i + 1))

/-- `swap_adjacent` (lines 686-693): swap the characters at positions `i` and
`i+1` for each `i < len - 1`. -/
def swap_adjacent (s : String) : List String :=
  (List.range (s.data.length - 1)).map fun i =>
    String.mk ((s.data.set i (s.data.getD (i + 1) ' ')).set (i + 1) (s.data.getD i ' '))

/-- `add_numbers` (lines 696-701): append and prepend each digit 1-9. -/
def add_numbers (s : String) : List String :=
  (List.range' 1 9).flatMap fun n => [s ++ toString n, toString n ++ s]

/-- The union of the five rules, as collected at lines 704-708. -/
def variantRules (s : String) : List String :=
  leetify s ++ underscore_dot_variants s ++ duplicate_letters s ++
    swap_adjacent s ++ add_numbers s

/-- Embeds `generate_username_variants` (lines 647-720). Python's `set` is
modelled as a list considered up to membership: the first round collects the
five rules on `username`; the second round (lines 711-716) applies the rules
to every first-round variant (iterating a list with duplicates adds the same
elements to the set, so membership is unchanged); finally the original
username is discarded and the set is returned deduplicated (lines 719-720).
The Python list order is hash-dependent and therefore not modelled; the
function's output is read as a finite set (membership and lack of
duplicates). -/
def generate_username_variants (username : String) : List String :=
  let first := variantRules username
  let second := first ++ first.flatMap variantRules
  (second.filter fun v => decide (v ≠ username)).dedup

/-- State of the worker pool executing the probe tasks of one scan: task
names still queued, currently running (in flight), and finished. -/
structure PoolState where
  queued : List String
  running : List String
  done : List String
deriving DecidableEq, Repr

/-- Transition semantics of the `ThreadPoolExecutor(max_workers=maxWorkers)`
used by `scan_usernames` (lines 457-462), per the executor's contract: a
queued task may start only while fewer than `maxWorkers` tasks are running
(each worker runs at most one `check_platform` call, hence at most one HTTP
request, at a time); a running task may finish at any time. -/
inductive PoolStep (maxWorkers : Nat) : PoolState → PoolState → Prop
  | start {s : PoolState} (t : String) (rest : List String) :
      s.queued = t :: rest → s.running.length < maxWorkers →
      PoolStep maxWorkers s ⟨rest, t :: s.running, s.done⟩
  | finish {s : PoolState} (t : String) :
      t ∈ s.running →
      PoolStep maxWorkers s ⟨s.queued, s.running.erase t, t :: s.done⟩

/-- Reachability under `PoolStep` from an initial state. -/
inductive PoolReach (maxWorkers : Nat) (init : PoolState) : PoolState → Prop
  | refl : PoolReach maxWorkers init init
  | step {s t : PoolState} : PoolReach maxWorkers init s →
      PoolStep maxWorkers s t → PoolReach maxWorkers init t

/-- The initial pool state of a scan: every platform of `platforms.items()`
queued, nothing running or done. -/
def scanPoolInit (items : List (String × PlatformInfo)) : PoolState :=
  ⟨items.map Prod.fst, [], []⟩

/-- Identity text extraction: models `BeautifulSoup(body).get_text()` on a
plain-text body. -/
def idGetText : String → String := fun s => s

/-- A transport oracle answering every request with an empty 404 response. -/
def respond404 : String → Except String Response := fun _ => Except.ok ⟨404, ""⟩

/-- The GitHub entry's classification-relevant fields (a `status_code` spec
with not-found set `[404]`). -/
def ghStatusInfo : PlatformInfo :=
  { url := some "https://github.com/{}", method := some "status_code",
    code := some [404] }

/-- The Twitter entry's classification-relevant fields (a `response_text`
spec with not-found substrings). -/
def twTextInfo : PlatformInfo :=
  { url := some "https://twitter.com/{}", method := some "response_text",
    error_msg := some ["doesn\x27t exist", "404"] }

theorem check_platform_ok_platform (gt : String → String)
    (rsp : String → Except String Response) (u p : String)
    (info : PlatformInfo) (r : ProbeResult)
    (h : check_platform gt rsp u p info = Except.ok r) : r.platform = p := by
  unfold check_platform at h
  split at h
  · exact absurd h (by simp)
  · split at h
    · exact absurd h (by simp)
    · injection h with h
      split at h
      · subst h; rfl
      · split at h
        · subst h; rfl
        · subst h; rfl

theorem collectResult_ok_platform (gt : String → String)
    (rsp : String → Except String Response) (u p : String)
    (info : PlatformInfo) (r : ProbeResult)
    (h : collectResult gt rsp u p info = Except.ok r) : r.platform = p := by
  unfold collectResult at h
  split at h
  · next r0 hcp =>
      injection h with h
      subst h
      exact check_platform_ok_platform gt rsp u p info r0 hcp
  · split at h
    · exact absurd h (by simp)
    · split at h
      · exact absurd h (by simp)
      · injection h with h
        subst h
        rfl

theorem scan_map_platform (gt : String → String)
    (rsp : String → Except String Response) (u : String)
    (items : List (String × PlatformInfo)) :
    ∀ rs, scan_usernames gt rsp u items = Except.ok rs →
      rs.map (fun r => r.platform) = items.map Prod.fst := by
  induction items with
  | nil =>
    intro rs h
    simp only [scan_usernames] at h
    injection h with h
    subst h
    rfl
  | cons hd tl ih =>
    intro rs h
    obtain ⟨p, info⟩ := hd
    simp only [scan_usernames] at h
    split at h
    · exact absurd h (by simp)
    · next r hcr =>
        split at h
        · exact absurd h (by simp)
        · next rs0 hrec =>
            injection h with h
            subst h
            simp [collectResult_ok_platform gt rsp u p info r hcr, ih rs0 hrec]

/-- A transport oracle answering every request with an empty 200 response. -/
def respond200 : String → Except String Response := fun _ => Except.ok ⟨200, ""⟩

/-- A transport oracle answering every request with an empty 500 response. -/
def respond500 : String → Except String Response := fun _ => Except.ok ⟨500, ""⟩

/-- A transport oracle that raises a timeout on every request. -/
def respondTimeout : String → Except String Response :=
  fun _ => Except.error "ConnectTimeout"

/-- C1 (counterexample): for the `status_code` spec with not-found set
`[404]`, a response with status 500 — in neither of the claim's sets — is
classified Taken (`available = some false`), not Indeterminate
(`available = none`): lines 407-408 compute a plain boolean and no
"unexpected status" branch exists. -/
theorem c1_status500_counterexample :
    check_platform idGetText respond500 "alice" "GitHub" ghStatusInfo =
      Except.ok ⟨"GitHub", "https://github.com/alice", some false, none⟩
    ∧ (some false : Option Bool) ≠ (none : Option Bool) :=
  ⟨rfl, by decide⟩

/-- C1 (amended): for a `status_code` spec, a successfully fetched response
is classified Available exactly when its status is in the configured
not-found code set, and Taken for every other status; there is no separate
expected-found set and no Indeterminate outcome for unexpected statuses. -/
theorem c1_statusCode_classification (gt : String → String)
    (rsp : String → Except String Response) (u p : String) (info : PlatformInfo)
    (t url : String) (codes : List Nat) (resp : Response)
    (hu : info.url = some t) (hf : formatTemplate t u = some url)
    (hm : info.method = some "status_code") (hc : info.code = some codes)
    (hr : rsp url = Except.ok resp) :
    check_platform gt rsp u p info =
      Except.ok ⟨p, url, some (codes.contains resp.status_code), none⟩
    ∧ (codes.contains resp.status_code = true ↔ resp.status_code ∈ codes) := by
  constructor
  · simp [check_platform, classify, hu, hf, hm, hc, hr]
  · simp

/-- C1 witness: the three stubbed statuses of the claim, evaluated — 404
yields Available, 200 yields Taken, 500 yields Taken. -/
theorem c1_statusCode_classification_witness :
    check_platform idGetText respond404 "alice" "GitHub" ghStatusInfo =
      Except.ok ⟨"GitHub", "https://github.com/alice", some true, none⟩
    ∧ check_platform idGetText respond200 "alice" "GitHub" ghStatusInfo =
      Except.ok ⟨"GitHub", "https://github.com/alice", some false, none⟩
    ∧ check_platform idGetText respond500 "alice" "GitHub" ghStatusInfo =
      Except.ok ⟨"GitHub", "https://github.com/alice", some false, none⟩ :=
  ⟨(c1_statusCode_classification idGetText respond404 "alice" "GitHub" ghStatusInfo
      _ _ _ _ rfl rfl rfl rfl rfl).1,
   (c1_statusCode_classification idGetText respond200 "alice" "GitHub" ghStatusInfo
      _ _ _ _ rfl rfl rfl rfl rfl).1,
   (c1_statusCode_classification idGetText respond500 "alice" "GitHub" ghStatusInfo
      _ _ _ _ rfl rfl rfl rfl rfl).1⟩

/-- C2 (code defect, evaluated at the failing input): a first-pass result
that is Indeterminate for GitHub, with a retry oracle whose new result is
Taken. The retry pass does produce the new Taken result (it appears in the
retry tables printed by `print_result_table`), yet the final report handed
to `display_results` and `save_results` still contains the superseded
first-pass ERROR entry: lines 917-946 never merge `retry_results` into
`results`, and lines 948-951 consume the unchanged `results`. The second
conjunct: the displayed and saved report depend only on the first-pass
results, for every retry oracle. -/
theorem c2_retry_not_merged :
    (mainReport (fun _ r => { r with available := some false, error := none })
        [⟨"GitHub", "https://github.com/alice", none, some "timeout"⟩] true =
      { retries := [[⟨"GitHub", "https://github.com/alice", some false, none⟩]],
        displayed := [("GitHub", "ERROR", "https://github.com/alice")],
        saved := [("GitHub", "ERROR", "https://github.com/alice")] })
    ∧ ∀ (check : Nat → ProbeResult → ProbeResult) (results : List ProbeResult)
        (flag : Bool),
        (mainReport check results flag).displayed = displayRows results
        ∧ (mainReport check results flag).saved = saveRows results := by
  constructor
  · simp [mainReport, retryTables, displayRows, saveRows, sortResults, statusString,
      List.mergeSort_singleton]
  · intro check results flag
    exact ⟨rfl, rfl⟩

/-- C3 (counterexample): a scan whose completion order is Twitter before
GitHub. The exported rows (`save_results` iterates `results` directly,
lines 602-617) keep that completion order — "Twitter" before "GitHub" —
which is not ascending, and the export differs between the two completion
orders of the same platforms. -/
theorem c3_export_order_counterexample :
    scan_usernames idGetText respond404 "alice"
      [("Twitter", twTextInfo), ("GitHub", ghStatusInfo)] =
      Except.ok [⟨"Twitter", "https://twitter.com/alice", some false, none⟩,
                 ⟨"GitHub", "https://github.com/alice", some true, none⟩]
    ∧ saveRows [⟨"Twitter", "https://twitter.com/alice", some false, none⟩,
                ⟨"GitHub", "https://github.com/alice", some true, none⟩] =
        [("Twitter", "TAKEN", "https://twitter.com/alice"),
         ("GitHub", "AVAILABLE", "https://github.com/alice")]
    ∧ ¬ (("Twitter" : String) ≤ "GitHub")
    ∧ saveRows [⟨"GitHub", "https://github.com/alice", some true, none⟩,
                ⟨"Twitter", "https://twitter.com/alice", some false, none⟩] ≠
      saveRows [⟨"Twitter", "https://twitter.com/alice", some false, none⟩,
                ⟨"GitHub", "https://github.com/alice", some true, none⟩] := by
  refine ⟨rfl, rfl, ?_, by decide⟩
  rw [not_le, String.lt_iff_toList_lt]
  decide

/-- C3 (amended): for every scan that completes without an uncaught
exception, over platforms with distinct names, the DISPLAYED table has
exactly one row per distinct platform name (a permutation of the platform
names, without duplicates) sorted ascending by platform name regardless of
completion order; the EXPORTED rows also have exactly one row per platform
but keep the completion order. -/
theorem c3_report_ordering (gt : String → String)
    (rsp : String → Except String Response) (u : String)
    (items : List (String × PlatformInfo)) (rs : List ProbeResult)
    (h : scan_usernames gt rsp u items = Except.ok rs)
    (hnd : (items.map Prod.fst).Nodup) :
    ((displayRows rs).map (fun x => x.1)).Perm (items.map Prod.fst)
    ∧ ((displayRows rs).map (fun x => x.1)).Nodup
    ∧ List.Pairwise (fun a b : String => a ≤ b) ((displayRows rs).map (fun x => x.1))
    ∧ (saveRows rs).map (fun x => x.1) = items.map Prod.fst := by
  have base := scan_map_platform gt rsp u items rs h
  have hperm : (sortResults rs).Perm rs := List.mergeSort_perm rs _
  have hmapped : ((displayRows rs).map (fun x => x.1)) =
      (sortResults rs).map (fun r => r.platform) := by
    simp [displayRows, List.map_map]
  have hp : ((displayRows rs).map (fun x => x.1)).Perm (items.map Prod.fst) := by
    rw [hmapped, ← base]
    exact hperm.map _
  refine ⟨hp, hp.nodup_iff.mpr (base ▸ hnd), ?_, ?_⟩
  · rw [hmapped]
    have hs : List.Pairwise
        (fun a b : ProbeResult => decide (a.platform ≤ b.platform) = true)
        (sortResults rs) := by
      apply List.sorted_mergeSort
      · intro a b c hab hbc
        simp only [decide_eq_true_eq] at *
        exact le_trans hab hbc
      · intro a b
        simp only [Bool.or_eq_true, decide_eq_true_eq]
        exact le_total _ _
    rw [List.pairwise_map]
    exact hs.imp (by simp)
  · rw [← base]
    simp [saveRows, List.map_map]

/-- C3 witness: the amended ordering facts at a concrete two-platform scan
completing in the order Twitter, GitHub. -/
theorem c3_report_ordering_witness :
    ((displayRows [⟨"Twitter", "https://twitter.com/alice", some false, none⟩,
        ⟨"GitHub", "https://github.com/alice", some true, none⟩]).map
          (fun x => x.1)).Perm ["Twitter", "GitHub"]
    ∧ ((displayRows [⟨"Twitter", "https://twitter.com/alice", some false, none⟩,
        ⟨"GitHub", "https://github.com/alice", some true, none⟩]).map
          (fun x => x.1)).Nodup
    ∧ List.Pairwise (fun a b : String => a ≤ b)
        ((displayRows [⟨"Twitter", "https://twitter.com/alice", some false, none⟩,
          ⟨"GitHub", "https://github.com/alice", some true, none⟩]).map (fun x => x.1))
    ∧ (saveRows [⟨"Twitter", "https://twitter.com/alice", some false, none⟩,
        ⟨"GitHub", "https://github.com/alice", some true, none⟩]).map (fun x => x.1) =
        ["Twitter", "GitHub"] :=
  c3_report_ordering idGetText respond404 "alice"
    [("Twitter", twTextInfo), ("GitHub", ghStatusInfo)] _ rfl (by decide)

/-- C4 (counterexample): a platform entry whose URL template holds a named
field. `info["url"].format(username)` at line 391 sits BEFORE the `try`
block and raises (KeyError), so `check_platform` raises past its own
boundary; the scheduler's `except` handler (line 471) re-formats the same
template and the re-raised exception escapes `scan_usernames` too. -/
theorem c4_template_escape_counterexample :
    check_platform idGetText respond404 "alice" "Bad"
      { url := some "https://x.com/{user}" } = Except.error "str.format error"
    ∧ scan_usernames idGetText respond404 "alice"
      [("Bad", { url := some "https://x.com/{user}" })] =
      Except.error "str.format error" :=
  ⟨rfl, rfl⟩

/-- C4 (amended): whenever the URL template formats successfully (the step
before the `try` block), `check_platform` never raises: it returns a result
for every transport and classification outcome, and a raised transport
exception is caught and converted into a result with `available = none` and
the `error` field set to the exception's description. -/
theorem c4_no_escape_after_url (gt : String → String)
    (rsp : String → Except String Response) (u p : String) (info : PlatformInfo)
    (t url : String) (hu : info.url = some t)
    (hf : formatTemplate t u = some url) :
    (∃ r, check_platform gt rsp u p info = Except.ok r)
    ∧ ∀ e, rsp url = Except.error e →
        check_platform gt rsp u p info = Except.ok ⟨p, url, none, some e⟩ := by
  have hshape : check_platform gt rsp u p info =
      Except.ok (match rsp url with
        | .error e => ⟨p, url, none, some e⟩
        | .ok response =>
          match classify gt info response with
          | .error e => ⟨p, url, none, some e⟩
          | .ok avail => ⟨p, url, some avail, none⟩) := by
    simp [check_platform, hu, hf]
  refine ⟨⟨_, hshape⟩, ?_⟩
  intro e he
  rw [hshape, he]

/-- C4 witness: a concrete timeout is caught and reported in the `error`
field with `available = none`. -/
theorem c4_no_escape_after_url_witness :
    check_platform idGetText respondTimeout "alice" "GitHub" ghStatusInfo =
      Except.ok ⟨"GitHub", "https://github.com/alice", none, some "ConnectTimeout"⟩ :=
  (c4_no_escape_after_url idGetText respondTimeout "alice" "GitHub" ghStatusInfo
    "https://github.com/{}" "https://github.com/alice" rfl rfl).2 "ConnectTimeout" rfl

/-- C5 (counterexample): the username "a/b" — holding the URL-reserved
character "/" — is substituted verbatim by `info["url"].format(username)`
(line 391): the resolved URL contains the raw "a/b" and not the
percent-encoded "a%2Fb". No percent-encoding is applied anywhere. -/
theorem c5_no_encoding_counterexample :
    check_platform idGetText respond404 "a/b" "GitHub" ghStatusInfo =
      Except.ok ⟨"GitHub", "https://github.com/a/b", some true, none⟩
    ∧ containsSubstr "https://github.com/a/b" "a/b" = true
    ∧ containsSubstr "https://github.com/a/b" "a%2Fb" = false :=
  ⟨rfl, rfl, rfl⟩

/-- C5 (amended): the username is substituted verbatim (not percent-encoded)
into the template's substitution slot: for every username, the GitHub
template resolves to the plain concatenation, and every successful probe of
that spec records that URL. -/
theorem c5_verbatim_substitution (u : String) :
    formatTemplate "https://github.com/{}" u = some ("https://github.com/" ++ u)
    ∧ ∀ (gt : String → String) (rsp : String → Except String Response)
        (r : ProbeResult),
        check_platform gt rsp u "GitHub" ghStatusInfo = Except.ok r →
          r.url = "https://github.com/" ++ u := by
  refine ⟨rfl, ?_⟩
  intro gt rsp r h
  unfold check_platform at h
  injection h with h
  split at h
  · subst h; rfl
  · split at h
    · subst h; rfl
    · subst h; rfl

/-- C5 witness: the amended fact at the concrete username "a b" (a space is
also substituted raw). -/
theorem c5_verbatim_substitution_witness :
    (⟨"GitHub", "https://github.com/a b", some true, none⟩ : ProbeResult).url =
      "https://github.com/" ++ "a b" :=
  (c5_verbatim_substitution "a b").2 idGetText respond404
    ⟨"GitHub", "https://github.com/a b", some true, none⟩ rfl

/-- A malformed override entry: no `method` key, and a URL template with no
substitution point. -/
def fooMalformed : String × PlatformInfo := ("Foo", { url := some "https://foo.example" })

/-- C6 (counterexample): `load_platforms` performs no validation — a
supplied override source with a missing required field and a template
without a substitution point is returned unchanged (lines 290-292 return
`json.load(f)` directly), and duplicate names are accepted too; no
configuration error is raised. -/
theorem c6_no_validation_counterexample :
    load_platforms (some [fooMalformed]) = [fooMalformed]
    ∧ fooMalformed.2.method = none
    ∧ containsSubstr "https://foo.example" "{}" = false
    ∧ load_platforms (some [fooMalformed, fooMalformed]) = [fooMalformed, fooMalformed] :=
  ⟨rfl, rfl, rfl, rfl⟩

/-- C6 (amended): `load_platforms` returns a supplied (parsed) override
source as-is, without any malformedness check, and returns the built-in
definitions when no source is supplied; the built-ins themselves do satisfy
the registry invariants (distinct names, every template with a substitution
point). -/
theorem c6_load_behavior :
    (∀ cfg, load_platforms (some cfg) = cfg)
    ∧ load_platforms none = builtinPlatforms
    ∧ (builtinPlatforms.map Prod.fst).Nodup
    ∧ builtinPlatforms.all
        (fun e => match e.2.url with
          | some t => containsSubstr t "{}"
          | none => false) = true := by
  refine ⟨fun _ => rfl, rfl, by decide, by decide⟩

/-- C7 (confirmed): for a `response_text` spec, a successfully fetched
response is classified Available exactly when one of the configured
not-found substrings occurs case-insensitively (both sides lower-cased,
lines 410-413) in the text extracted from the response body, and Taken
otherwise — the outcome is always Available or Taken, never
Indeterminate. -/
theorem c7_response_text_iff (gt : String → String)
    (rsp : String → Except String Response) (u p : String) (info : PlatformInfo)
    (t url : String) (msgs : List String) (resp : Response) (r : ProbeResult)
    (hu : info.url = some t) (hf : formatTemplate t u = some url)
    (hm : info.method = some "response_text") (he : info.error_msg = some msgs)
    (hr : rsp url = Except.ok resp)
    (h : check_platform gt rsp u p info = Except.ok r) :
    (r.available = some true ↔
      ∃ msg ∈ msgs, containsSubstr (pyLower (gt resp.text)) (pyLower msg) = true)
    ∧ (r.available = some true ∨ r.available = some false) := by
  have hval : check_platform gt rsp u p info =
      Except.ok ⟨p, url,
        some (msgs.any fun m => containsSubstr (pyLower (gt resp.text)) (pyLower m)),
        none⟩ := by
    simp [check_platform, classify, hu, hf, hm, he, hr]
  rw [hval] at h
  injection h with h
  subst h
  constructor
  · simp [List.any_eq_true]
  · by_cases hc :
      (msgs.any fun m => containsSubstr (pyLower (gt resp.text)) (pyLower m)) = true
    · left; simp [hc]
    · right; simp [Bool.eq_false_iff.mpr hc]

/-- A transport oracle answering with a body that contains the Twitter
not-found phrase in upper case. -/
def respondNotExist : String → Except String Response :=
  fun _ => Except.ok ⟨200, "User DOESN\x27T EXIST here"⟩

/-- A transport oracle answering with a body containing no configured
pattern. -/
def respondHello : String → Except String Response :=
  fun _ => Except.ok ⟨200, "hello profile"⟩

/-- C7 witness: the claim's two stubbed bodies — one containing
"doesn't exist" in a different letter case (Available), one without any
configured substring (Taken). -/
theorem c7_response_text_iff_witness :
    ((⟨"Twitter", "https://twitter.com/alice", some true, none⟩ : ProbeResult).available
        = some true ↔
      ∃ msg ∈ ["doesn\x27t exist", "404"],
        containsSubstr (pyLower (idGetText "User DOESN\x27T EXIST here")) (pyLower msg) = true)
    ∧ ((⟨"Twitter", "https://twitter.com/alice", some false, none⟩ : ProbeResult).available
        = some true ↔
      ∃ msg ∈ ["doesn\x27t exist", "404"],
        containsSubstr (pyLower (idGetText "hello profile")) (pyLower msg) = true) :=
  ⟨(c7_response_text_iff idGetText respondNotExist "alice" "Twitter" twTextInfo
      _ _ _ _ _ rfl rfl rfl rfl rfl rfl).1,
   (c7_response_text_iff idGetText respondHello "alice" "Twitter" twTextInfo
      _ _ _ _ _ rfl rfl rfl rfl rfl rfl).1⟩

/-- C8 (confirmed): the variant expander is a pure function of the username
(determinism is immediate in the embedding); its output — read as a set —
never contains the original username and has no duplicates; and
`generate_username_variants "ann"` excludes "ann" and contains the leet
variant "4nn" (the form with the letter a replaced by 4). -/
theorem c8_variant_expander :
    (∀ u : String, u ∉ generate_username_variants u
      ∧ (generate_username_variants u).Nodup)
    ∧ "ann" ∉ generate_username_variants "ann"
    ∧ "4nn" ∈ generate_username_variants "ann" := by
  have hgen : ∀ u : String, u ∉ generate_username_variants u
      ∧ (generate_username_variants u).Nodup := by
    intro u
    constructor
    · simp [generate_username_variants, List.mem_dedup, List.mem_filter]
    · exact List.nodup_dedup _
  refine ⟨hgen, (hgen "ann").1, ?_⟩
  simp only [generate_username_variants]
  exact List.mem_dedup.mpr (List.mem_filter.mpr ⟨by decide, by decide⟩)

/-- C9 (confirmed): in every pool state reachable from the start of a scan
under the bounded-worker transition semantics, the number of in-flight
probes never exceeds `maxWorkers` (instantiated with the `threads`
argument, i.e. the configured maximum concurrency). -/
theorem c9_concurrency_bound (maxWorkers : Nat)
    (items : List (String × PlatformInfo)) (s : PoolState)
    (h : PoolReach maxWorkers (scanPoolInit items) s) :
    s.running.length ≤ maxWorkers := by
  induction h with
  | refl => simp [scanPoolInit]
  | step hr hstep ih =>
    cases hstep with
    | start t rest hq hlt => exact hlt
    | finish t ht =>
      exact le_trans (List.Sublist.length_le (List.erase_sublist t _)) ih

/-- C9 witness: a concrete reachable state of a two-platform scan with
`maxWorkers = 3`, after both tasks started. -/
theorem c9_concurrency_bound_witness :
    (⟨[], ["Twitter", "GitHub"], []⟩ : PoolState).running.length ≤ 3 :=
  c9_concurrency_bound 3 [("GitHub", ghStatusInfo), ("Twitter", twTextInfo)] _
    (PoolReach.step
      (PoolReach.step PoolReach.refl
        (PoolStep.start "GitHub" ["Twitter"] rfl (by decide)))
      (PoolStep.start "Twitter" [] rfl (by decide)))

/-- C10 (confirmed): for a spec whose method is neither "status_code" nor
"response_text", a successful request is always classified Taken
(`available = some false`), never Indeterminate, whatever the response
content or status: lines 414-415 set `is_available = False`
unconditionally. -/
theorem c10_unknown_method_taken (gt : String → String)
    (rsp : String → Except String Response) (u p : String) (info : PlatformInfo)
    (t url m : String) (resp : Response)
    (hu : info.url = some t) (hf : formatTemplate t u = some url)
    (hm : info.method = some m) (h1 : m ≠ "status_code")
    (h2 : m ≠ "response_text") (hr : rsp url = Except.ok resp) :
    check_platform gt rsp u p info = Except.ok ⟨p, url, some false, none⟩ := by
  simp [check_platform, classify, hu, hf, hm, hr, h1, h2]

/-- A spec using an unrecognized classification method. -/
def redirectInfo : PlatformInfo :=
  { url := some "https://r.example/{}", method := some "redirect" }

/-- C10 witness: a concrete probe of a "redirect"-method spec with a 404
response is classified Taken. -/
theorem c10_unknown_method_taken_witness :
    check_platform idGetText respond404 "alice" "R" redirectInfo =
      Except.ok ⟨"R", "https://r.example/alice", some false, none⟩ :=
  c10_unknown_method_taken idGetText respond404 "alice" "R" redirectInfo
    _ _ _ _ rfl rfl rfl (by decide) (by decide) rfl

end Usrlinks
